import Mathlib

/-!
Verification development for the AI-code-tools repository (tsDocumenter.js,
unitTestCreator.js and the unnamed variants).  The JavaScript sources are
shallowly embedded: strings are Lean strings (operated on through their
character lists), nullable values are `Option`, runtime failures are
`Except`, and the external completion endpoint is an abstract outcome value.
-/

namespace AICodeTools

/- ### JavaScript string primitives -/

/-- Character class of the JavaScript `\s` regex class and of
`String.prototype.trim`: ASCII whitespace plus the Unicode space
separators, line separators and the BOM. -/
def isJsWs (c : Char) : Bool :=
  c == ' ' || c == '\t' || c == '\n' || c == '\r' ||
  c == Char.ofNat 0x0b || c == Char.ofNat 0x0c ||
  c == Char.ofNat 0xa0 || c == Char.ofNat 0x1680 ||
  (decide (0x2000 ≤ c.toNat) && decide (c.toNat ≤ 0x200a)) ||
  c == Char.ofNat 0x2028 || c == Char.ofNat 0x2029 ||
  c == Char.ofNat 0x202f || c == Char.ofNat 0x205f ||
  c == Char.ofNat 0x3000 || c == Char.ofNat 0xfeff

/-- Character-list form of JavaScript `String.prototype.trim`. -/
def trimChars (l : List Char) : List Char :=
  ((l.dropWhile isJsWs).reverse.dropWhile isJsWs).reverse

/-- JavaScript `String.prototype.trim`. -/
def jsTrim (s : String) : String :=
  ⟨trimChars s.data⟩

/-- JavaScript `String.prototype.split` with a one-character separator:
`"".split(sep)` is `[""]`, and separators at either end produce empty
fields. -/
def splitOnChar (sep : Char) : List Char → List (List Char)
  | [] => [[]]
  | c :: rest =>
    match splitOnChar sep rest with
    | [] => [[]]
    | cur :: others => if c == sep then [] :: cur :: others else (c :: cur) :: others

/-- JavaScript `Array.prototype.join` with a one-character separator. -/
def joinWithChar (sep : Char) : List (List Char) → List Char
  | [] => []
  | [l] => l
  | l :: ls => l ++ sep :: joinWithChar sep ls

/-- JavaScript `Array.prototype.join` on an array of strings:
`[].join(sep) = ""` and a single element is returned unchanged. -/
def joinSep (sep : String) : List String → String
  | [] => ""
  | [t] => t
  | t :: ts => t ++ sep ++ joinSep sep ts

/-- JavaScript `String.prototype.indexOf(pat, start)` on character lists:
the least index `i ≥ start` where `pat` occurs, `none` standing for the
JavaScript result `-1`. -/
def jsIndexOfFromL (s pat : List Char) (start : Nat) : Option Nat :=
  (List.range (s.length + 1)).find? (fun i => decide (start ≤ i) && pat.isPrefixOf (s.drop i))

/-- JavaScript `String.prototype.substring` on character lists: both
bounds are clamped to the length and swapped when out of order. -/
def jsSubstringL (s : List Char) (a b : Nat) : List Char :=
  let len := s.length
  let lo := min (min a len) (min b len)
  let hi := max (min a len) (min b len)
  (s.drop lo).take (hi - lo)

/- ### tsDocumenter.js: extractComment / updateDoc / selection -/

/-- The per-line cleanup `line.replace(/^\* ?/, '')` of
`extractComment` (src/tsDocumenter.js line 94): one leading asterisk and
at most one following space are removed. -/
def stripLeadStarL : List Char → List Char
  | '*' :: ' ' :: r => r
  | '*' :: r => r
  | l => l

/-- Character-list body of `extractComment` (src/tsDocumenter.js lines
77-98): locate `/**`, locate `*/` from that position, take the
`substring` between them, split into lines, trim each line and strip its
leading asterisk, and rejoin with newlines.  `none` is the JavaScript
`null`. -/
def extractCommentChars (text : List Char) : Option (List Char) :=
  match jsIndexOfFromL text ['/', '*', '*'] 0 with
  | none => none
  | some commentStart =>
    match jsIndexOfFromL text ['*', '/'] commentStart with
    | none => none
    | some commentEnd =>
      some (joinWithChar '\n'
        ((splitOnChar '\n' (jsSubstringL text (commentStart + 3) commentEnd)).map
          (fun line => stripLeadStarL (trimChars line))))

/-- `extractComment` of src/tsDocumenter.js on strings. -/
def extractComment (text : String) : Option String :=
  (extractCommentChars text.data).map (fun l => ⟨l⟩)

/-- The string `updateDoc` (src/tsDocumenter.js line 109) builds with the
template literal `` `\n${extractComment(documentation)}` ``: a JavaScript
template literal stringifies `null` to the four characters `null`. -/
def updateDocComment (documentation : String) : String :=
  "\n" ++ (match extractComment documentation with
           | some s => s
           | none => "null")

/-- The splice performed on a declaration, modelled as the list of its
JsDoc texts.  The call-site guard `if (newDocumentation)` of the main
loop (src/tsDocumenter.js line 154) skips `null` and the empty string
(both falsy); otherwise `updateDoc` replaces the first JsDoc's text or
inserts a new one (lines 108-121). -/
def applyDoc (jsDocs : List String) (generated : Option String) : List String :=
  match generated with
  | none => jsDocs
  | some d =>
    if d = "" then jsDocs
    else
      match jsDocs with
      | [] => [updateDocComment d]
      | _ :: rest => updateDocComment d :: rest

/-- Documentation-mode selection (src/tsDocumenter.js lines 149-152): the
JsDoc texts are joined with newlines, the result must be falsy or match
`/^\s*$/`, and the declaration's source text must be longer than the
configured minimum. -/
def selectDocMode (jsDocTexts : List String) (codeText : String) (minLength : Nat) : Bool :=
  (joinSep "\n" jsDocTexts == "" || (joinSep "\n" jsDocTexts).data.all isJsWs) &&
  decide (minLength < codeText.length)

/- ### Completion client (createDoc / generateTestFileContent) -/

/-- The `message` object of an OpenAI chat choice; its `content` may be
absent (`undefined`). -/
structure ApiMessage where
  content : Option String
deriving DecidableEq

/-- One element of `response.data.choices`; its `message` may be
absent. -/
structure ApiChoice where
  message : Option ApiMessage
deriving DecidableEq

/-- Outcome of the awaited `openai.createChatCompletion` call: either the
await throws (transport, HTTP or parsing error) or a response with a list
of choices arrives. -/
inductive ApiOutcome where
  | failure : ApiOutcome
  | success : List ApiChoice → ApiOutcome
deriving DecidableEq

/-- Response handling shared by `createDoc` (src/tsDocumenter.js lines
48-68) and `generateTestFileContent` (src/unnamed/part_001 lines 32-53):
`choices[0].message` throws when the choices are empty, logging
`message.content` throws when the message is absent, the truthiness test
`message && message.content` rejects an absent or empty content, and every
throw is caught locally and turned into `null`; otherwise the trimmed
content is returned. -/
def completionResult : ApiOutcome → Option String
  | ApiOutcome.failure => none
  | ApiOutcome.success choices =>
    match choices.head? with
    | none => none
    | some choice =>
      match choice.message with
      | none => none
      | some msg =>
        match msg.content with
        | none => none
        | some c => if c = "" then none else some (jsTrim c)

/-- The first choice's message content, when every field is present. -/
def firstChoiceContent : ApiOutcome → Option String
  | ApiOutcome.failure => none
  | ApiOutcome.success choices =>
    choices.head?.bind (fun choice => choice.message.bind (fun msg => msg.content))

/-- The `openAiConfig` record of config.json as the sources read it.  The
sampling parameters are passed through verbatim and never computed with,
so their JSON numbers are modelled as rationals. -/
structure OpenAiConfig where
  model : String
  max_tokens : Nat
  n : Nat
  stop : List String
  temperature : Rat
  top_p : Rat
  retries : Nat
deriving DecidableEq

/-- Configuration read by tsDocumenter.js: the flat prompt fields and the
model parameters. -/
structure DocConfig where
  systemContent : String
  beforeCode : String
  afterCode : String
  openAiConfig : OpenAiConfig
deriving DecidableEq

/-- One outgoing `createChatCompletion` request: the fields the sources
put into the request object.  `top_p` is only passed by
`generateTestFileContent`. -/
structure ChatRequest where
  model : String
  messages : List (String × String)
  max_tokens : Nat
  n : Nat
  stop : List String
  temperature : Rat
  top_p : Option Rat
deriving DecidableEq

/-- `createDoc` (src/tsDocumenter.js lines 38-69) as a whole run: the
requests it sends (always exactly the one built from the prompt template)
and its result.  The `retries` parameter is accepted — its JavaScript
default is `config.openAiConfig.retries` — but never read. -/
def createDocRun (cfg : DocConfig) (codigo : String) (retries : Nat)
    (outcome : ApiOutcome) : List ChatRequest × Option String :=
  let userMessage := cfg.beforeCode ++ codigo ++ cfg.afterCode
  let messages := [("system", cfg.systemContent), ("user", userMessage)]
  ([{ model := cfg.openAiConfig.model
      messages := messages
      max_tokens := cfg.openAiConfig.max_tokens
      n := cfg.openAiConfig.n
      stop := cfg.openAiConfig.stop
      temperature := cfg.openAiConfig.temperature
      top_p := none }],
   completionResult outcome)

/- ### part_001: removeComments and the prompt builder -/

/-- The ECMAScript LineTerminator class, which the regex `.` does not
match: LF, CR, LINE SEPARATOR and PARAGRAPH SEPARATOR. -/
def isJsLineTerminator (c : Char) : Bool :=
  c == '\n' || c == '\r' || c == Char.ofNat 0x2028 || c == Char.ofNat 0x2029

/-- First pass of `removeComments` (src/unnamed/part_001 lines 56-59):
the global regex `/\/\/.*/g` deletes from each `//` up to but excluding
the next line terminator (`.` matches no LineTerminator, so on CRLF
input the `\r` survives along with the `\n`), rendered as a
left-to-right scan with an in-comment mode. -/
def lineCommentScan : Bool → List Char → List Char
  | _, [] => []
  | true, c :: rest =>
    if isJsLineTerminator c then c :: lineCommentScan false rest
    else lineCommentScan true rest
  | false, '/' :: '/' :: rest => lineCommentScan true rest
  | false, c :: rest => c :: lineCommentScan false rest

/-- The lazy part `[\s\S]*?\*\/` of the block-comment regex: the rest of
the input after the earliest following `*/`, or `none` when the comment
is never closed (in which case the regex does not match at all). -/
def findBlockClose : List Char → Option (List Char)
  | [] => none
  | _ :: [] => none
  | c :: d :: r => if c == '*' && d == '/' then some r else findBlockClose (d :: r)

/-- Second pass of `removeComments`: the global regex
`/\/\*[\s\S]*?\*\//g` deletes each `/*` together with everything up to
the earliest following `*/`; an unterminated `/*` is left in place.  The
fuel argument only makes the recursion structural: every step consumes at
least one character, so `fuel = length` always suffices and the
fuel-exhausted case is never reached on a nonempty list. -/
def removeBlockAux : Nat → List Char → List Char
  | 0, l => l
  | _ + 1, [] => []
  | _ + 1, [c] => [c]
  | fuel + 1, c :: d :: rest =>
    if c == '/' && d == '*' then
      match findBlockClose rest with
      | some r => removeBlockAux fuel r
      | none => c :: removeBlockAux fuel (d :: rest)
    else c :: removeBlockAux fuel (d :: rest)

/-- `removeComments` (src/unnamed/part_001 lines 56-60): line comments
are removed first, then block comments. -/
def removeComments (code : String) : String :=
  let afterLine := lineCommentScan false code.data
  ⟨removeBlockAux afterLine.length afterLine⟩

/-- Replacement-string expansion of JavaScript `String.prototype.replace`
(ECMAScript GetSubstitution) for a string pattern: `$$` collapses to `$`,
`$&` inserts the matched text, a dollar before the character 0x60 inserts
the part before the match, a dollar before the character 0x27 inserts the
part after the match, and any other sequence — including `$1`, which has
no capture group to refer to — stays literal. -/
def expandRepl (matched pre post : List Char) : List Char → List Char
  | [] => []
  | [c] => [c]
  | c :: d :: rest =>
    if c == '$' then
      if d == '$' then '$' :: expandRepl matched pre post rest
      else if d == '&' then matched ++ expandRepl matched pre post rest
      else if d == Char.ofNat 0x60 then pre ++ expandRepl matched pre post rest
      else if d == Char.ofNat 0x27 then post ++ expandRepl matched pre post rest
      else c :: expandRepl matched pre post (d :: rest)
    else c :: expandRepl matched pre post (d :: rest)

/-- JavaScript `s.replace(pat, repl)` with string arguments: only the
first occurrence of `pat` is replaced, and the replacement string is
expanded per `expandRepl`. -/
def jsReplaceFirst (s pat repl : String) : String :=
  match jsIndexOfFromL s.data pat.data 0 with
  | none => s
  | some i =>
    let pre := s.data.take i
    let post := s.data.drop (i + pat.data.length)
    ⟨pre ++ expandRepl pat.data pre post repl.data ++ post⟩

/-- Literal first-occurrence replacement, following the spec's words
("literal string replacement of named tokens"): the replacement string is
inserted verbatim. -/
def literalReplaceFirst (s pat repl : String) : String :=
  match jsIndexOfFromL s.data pat.data 0 with
  | none => s
  | some i => ⟨s.data.take i ++ repl.data ++ s.data.drop (i + pat.data.length)⟩

/-- The `config.prompt` record used by src/unnamed/part_001. -/
structure PromptConfig where
  systemContent : String
  beforeCode : String
  afterCode : String
deriving DecidableEq

/-- The user message built by `generateTestFileContent`
(src/unnamed/part_001 lines 22-26): `{className}` is substituted in the
before-fragment, `{methodName}` then `{testFileName}` in the
after-fragment, and the fragments surround the comment-stripped class
text. -/
def buildTestUserMessage (p : PromptConfig) (className funcName testFileName clasCode : String) : String :=
  let beforeCode := jsReplaceFirst p.beforeCode "{className}" className
  let afterCode := jsReplaceFirst (jsReplaceFirst p.afterCode "{methodName}" funcName)
    "{testFileName}" testFileName
  beforeCode ++ removeComments clasCode ++ afterCode

/-- The same user message built with literal placeholder substitution, as
the spec's words describe it; the comparison target for claim C8. -/
def literalBuildTestUserMessage (p : PromptConfig) (className funcName testFileName clasCode : String) : String :=
  let beforeCode := literalReplaceFirst p.beforeCode "{className}" className
  let afterCode := literalReplaceFirst (literalReplaceFirst p.afterCode "{methodName}" funcName)
    "{testFileName}" testFileName
  beforeCode ++ removeComments clasCode ++ afterCode

/-- Configuration read by src/unnamed/part_001. -/
structure TestGenConfig where
  prompt : PromptConfig
  minLength : Nat
  openAiConfig : OpenAiConfig
deriving DecidableEq

/-- `generateTestFileContent` (src/unnamed/part_001 lines 21-54) as a
whole run: the single request it sends and its result.  As in
`createDocRun`, the `retries` parameter is accepted but never read. -/
def generateTestFileContentRun (cfg : TestGenConfig)
    (className funcName testFileName clasCode : String) (retries : Nat)
    (outcome : ApiOutcome) : List ChatRequest × Option String :=
  let userMessage := buildTestUserMessage cfg.prompt className funcName testFileName clasCode
  ([{ model := cfg.openAiConfig.model
      messages := [("system", cfg.prompt.systemContent), ("user", userMessage)]
      max_tokens := cfg.openAiConfig.max_tokens
      n := cfg.openAiConfig.n
      stop := cfg.openAiConfig.stop
      temperature := cfg.openAiConfig.temperature
      top_p := some cfg.openAiConfig.top_p }],
   completionResult outcome)

/- ### part_001: test-file paths, selection and the main loop -/

/-- The component of a POSIX path after its last slash. -/
def baseComponent (p : String) : List Char :=
  (p.data.reverse.takeWhile (fun c => !(c == '/'))).reverse

/-- Node `path.basename(p, ext)`: the last path component, with `ext`
removed when it is a proper trailing suffix.  Faithful for the paths the
tools build (no trailing slashes). -/
def jsPathBasename (p ext : String) : String :=
  let base := baseComponent p
  if ext.data.isSuffixOf base && !(base == ext.data) then
    ⟨base.take (base.length - ext.data.length)⟩
  else ⟨base⟩

/-- Node `path.dirname`: everything before the last slash, `"."` when
there is none.  Faithful for the paths the tools build (no trailing
slashes). -/
def jsPathDirname (p : String) : String :=
  let afterLen := (p.data.reverse.takeWhile (fun c => !(c == '/'))).length
  if afterLen = p.data.length then "."
  else if p.data.length - afterLen = 1 then "/"
  else ⟨p.data.take (p.data.length - afterLen - 1)⟩

/-- The test file name computed at src/unnamed/part_001 line 126:
`path.basename(file, '.ts')` — so a `.tsx` extension is not stripped —
followed by the method name and the fixed suffix `.spec.ts`. -/
def testFileName (filePath methodName : String) : String :=
  jsPathBasename filePath ".ts" ++ "." ++ methodName ++ ".spec.ts"

/-- The test file path computed at src/unnamed/part_001 line 127: the
test file name joined as a sibling of the source file. -/
def testFilePath (filePath methodName : String) : String :=
  jsPathDirname filePath ++ "/" ++ testFileName filePath methodName

/-- Modelled from the claim's words, as the comparison target for C5: the
path `<fileBaseNameWithoutExtension>.<methodName>.spec.<ext>` placed as a
sibling of the source file, where the base name loses its extension and
`<ext>` is that extension. -/
def claimedTestFilePath (filePath methodName : String) : String :=
  let base := baseComponent filePath
  let extLen := (base.reverse.takeWhile (fun c => !(c == '.'))).length
  if extLen = base.length then
    jsPathDirname filePath ++ "/" ++ (⟨base⟩ : String) ++ "." ++ methodName ++ ".spec."
  else
    jsPathDirname filePath ++ "/" ++ (⟨base.take (base.length - extLen - 1)⟩ : String) ++
      "." ++ methodName ++ ".spec." ++ (⟨(base.reverse.takeWhile (fun c => !(c == '.'))).reverse⟩ : String)

/-- Test-generation selection for a class method (src/unnamed/part_001
lines 121-129): the name must be truthy, the method text longer than the
configured minimum, and no file may exist at the computed test file
path.  `existingFiles` lists the paths present on disk. -/
def selectTestMode (methodName methodCode filePath : String)
    (existingFiles : List String) (minLength : Nat) : Bool :=
  !(methodName == "") && decide (minLength < methodCode.length) &&
  !(decide (testFilePath filePath methodName ∈ existingFiles))

/-- Reading the file system model: the content at a path, `none` when no
file exists there. -/
def fsLookup (p : String) : List (String × String) → Option String
  | [] => none
  | (k, v) :: rest => if p = k then some v else fsLookup p rest

/-- State of one test-generation run over a source file: the file system
as an association list from path to content (most recent write first) and
the method names for which a completion request has been issued. -/
structure TGState where
  fs : List (String × String)
  requests : List String
deriving DecidableEq

/-- One iteration of the method loop (src/unnamed/part_001 lines
121-136): when the selector accepts, a completion request is issued and
the generated content is written at the computed path; otherwise nothing
happens.  `gen` abstracts the completion endpoint. -/
def testGenStep (filePath : String) (gen : String → String) (minLength : Nat)
    (st : TGState) (m : String × String) : TGState :=
  if selectTestMode m.1 m.2 filePath (st.fs.map Prod.fst) minLength then
    { fs := (testFilePath filePath m.1, gen m.1) :: st.fs
      requests := m.1 :: st.requests }
  else st

/-- The method loop of src/unnamed/part_001 over one class: each method
is a name/source-text pair, processed in order. -/
def runTestGen (filePath : String) (gen : String → String) (minLength : Nat)
    (methods : List (String × String)) (st : TGState) : TGState :=
  methods.foldl (testGenStep filePath gen minLength) st

/- ### unitTestCreator.js: the variant with the unbound identifier -/

/-- The identifiers in scope at src/src/UnitTestCreator/unitTestCreator.js
line 89, transcribed from the source: the module-level bindings (lines
1-62) and the loop bindings of the surrounding method loop (lines 66-88).
The source declares `methodName` (line 85) — not `methodname` — and never
requires the `path` module. -/
def unitTestCreatorScope : List String :=
  ["require", "fs", "Project", "SyntaxKind", "Configuration", "OpenAIApi",
   "config", "configuration", "openai", "generateTestFileContent",
   "createUnitTestFile", "project", "dirPath", "files", "file", "classes",
   "classObj", "methods", "method", "methodName", "code"]

/-- Evaluation of an identifier reference: a name not bound in scope
throws a `ReferenceError`. -/
def evalIdent (scope : List String) (name : String) : Except String Unit :=
  if scope.contains name then Except.ok () else
    Except.error ("ReferenceError: " ++ name ++ " is not defined")

/-- The body of the method loop of unitTestCreator.js (lines 84-93):
after the truthiness and length guards, line 89 evaluates
`generateTestFileContent(methodname, code)` — looking up `methodname` —
and line 90 evaluates `path.basename(...)` — looking up `path`.  When
both lookups succeed the branch would write the generated content at the
`__tests__` path; the returned list holds the writes performed. -/
def unitTestCreatorMethodBranch (methodName code filePath testContent : String)
    (minLength : Nat) : Except String (List (String × String)) :=
  if methodName = "" then Except.ok []
  else if code.length ≤ minLength then Except.ok []
  else do
    let _ ← evalIdent unitTestCreatorScope "methodname"
    let _ ← evalIdent unitTestCreatorScope "path"
    Except.ok [(jsPathDirname filePath ++ "/__tests__/" ++
      jsPathBasename filePath ".ts" ++ "." ++ methodName ++ ".spec.ts", testContent)]

/- ### Claims C1, C2, C10 -/

/-- C1 (corrected): on the generated text `"/**\n * Hello\n * World\n */"`
the spliced content is not `"\nHello\nWorld"`.  The substring strictly
between the markers starts with the newline right after `/**` and ends
with the space before `*/`, so its first and last lines strip to empty
lines that survive the rejoin. -/
theorem c1_hello_world_counterexample :
    applyDoc [] (some "/**\n * Hello\n * World\n */") ≠ ["\nHello\nWorld"] := by
  decide

/-- C1 (amended): on that generated text the spliced content is exactly
`"\n\nHello\nWorld\n"` — the rejoined lines contribute a leading and a
trailing newline and `updateDoc` prefixes one more — both when the
declaration has no JsDoc yet and when an existing one is replaced. -/
theorem c1_hello_world_amended :
    applyDoc [] (some "/**\n * Hello\n * World\n */") = ["\n\nHello\nWorld\n"] ∧
    applyDoc ["/** old */"] (some "/**\n * Hello\n * World\n */") = ["\n\nHello\nWorld\n"] := by
  decide

/-- C2 (code bug): for non-null generated text without a `/**` marker (or
without a closing `*/`), `updateDoc` still mutates the declaration:
`extractComment` returns `null`, the template literal stringifies it, and
the text `"\nnull"` replaces the existing JsDoc or is inserted as a new
one. -/
theorem c2_null_splice_evaluation :
    applyDoc ["/** old */"] (some "Here is documentation.") = ["\nnull"] ∧
    applyDoc [] (some "Here is documentation.") = ["\nnull"] ∧
    applyDoc ["/** old */"] (some "/** unterminated") = ["\nnull"] := by
  decide

/-- C10 (confirmed): on `"/**/"` the search for `*/` starting at the
`/**` position finds the overlapping occurrence at index 2, `substring`
swaps the out-of-order bounds 3 and 2 yielding `"*"`, the asterisk is
stripped, and `extractComment` returns the empty string rather than an
absent result, so the splice installs a comment that is a single
newline. -/
theorem c10_overlapping_markers :
    jsIndexOfFromL ("/**/").data ['*', '/'] 0 = some 2 ∧
    jsSubstringL ("/**/").data 3 2 = ['*'] ∧
    extractComment "/**/" = some "" ∧
    applyDoc [] (some "/**/") = ["\n"] := by
  decide

/- ### Claims C4, C7, C8 -/

/-- C4 (corrected): a first choice whose content is a single space is
truthy, so the client returns `" ".trim()` — the empty string, which is
neither a null result nor a non-empty string as the claim requires. -/
theorem c4_completion_counterexample :
    ¬ (completionResult (ApiOutcome.success [⟨some ⟨some " "⟩⟩]) = none ∨
       ∃ s, completionResult (ApiOutcome.success [⟨some ⟨some " "⟩⟩]) = some s ∧ s ≠ "") := by
  have h : completionResult (ApiOutcome.success [⟨some ⟨some " "⟩⟩]) = some "" := by decide
  rintro (h1 | ⟨s, hs, hne⟩)
  · rw [h] at h1
    exact Option.noConfusion h1
  · rw [h] at hs
    exact hne (Option.some.injEq .. ▸ hs).symm

/-- C4 (amended): the completion client returns either null or the
whitespace-trimmed content of the first choice's message, where that
content was present and non-empty (so the result can be empty exactly
when the content was non-empty but whitespace-only); any missing field or
thrown error yields null, never a fatal failure or a partially populated
value, and both `createDoc` and `generateTestFileContent` return exactly
this result. -/
theorem c4_completion_amended :
    (∀ o : ApiOutcome, completionResult o = none ∨
      ∃ c, firstChoiceContent o = some c ∧ c ≠ "" ∧ completionResult o = some (jsTrim c)) ∧
    (∀ (cfg : DocConfig) (codigo : String) (r : Nat) (o : ApiOutcome),
      (createDocRun cfg codigo r o).2 = completionResult o) ∧
    (∀ (cfg : TestGenConfig) (cn fn tf cc : String) (r : Nat) (o : ApiOutcome),
      (generateTestFileContentRun cfg cn fn tf cc r o).2 = completionResult o) := by
  refine ⟨?_, fun _ _ _ _ => rfl, fun _ _ _ _ _ _ _ => rfl⟩
  intro o
  cases o with
  | failure => exact Or.inl rfl
  | success choices =>
    cases choices with
    | nil => exact Or.inl rfl
    | cons choice tl =>
      cases hm : choice.message with
      | none => exact Or.inl (by simp [completionResult, hm])
      | some msg =>
        cases hc : msg.content with
        | none => exact Or.inl (by simp [completionResult, hm, hc])
        | some c =>
          by_cases hce : c = ""
          · exact Or.inl (by simp [completionResult, hm, hc, hce])
          · exact Or.inr ⟨c, by simp [firstChoiceContent, hm, hc], hce,
              by simp [completionResult, hm, hc, hce]⟩

/-- C7 (confirmed): both completion clients send exactly one request, and
neither the requests nor the result depend on the `retries` argument —
the count is threaded through the signature but never drives a retry
loop. -/
theorem c7_retries_unused :
    (∀ (cfg : DocConfig) (codigo : String) (r₁ r₂ : Nat) (o : ApiOutcome),
      createDocRun cfg codigo r₁ o = createDocRun cfg codigo r₂ o ∧
      (createDocRun cfg codigo r₁ o).1.length = 1) ∧
    (∀ (cfg : TestGenConfig) (cn fn tf cc : String) (r₁ r₂ : Nat) (o : ApiOutcome),
      generateTestFileContentRun cfg cn fn tf cc r₁ o =
        generateTestFileContentRun cfg cn fn tf cc r₂ o ∧
      (generateTestFileContentRun cfg cn fn tf cc r₁ o).1.length = 1) :=
  ⟨fun _ _ _ _ _ => ⟨rfl, rfl⟩, fun _ _ _ _ _ _ _ _ => ⟨rfl, rfl⟩⟩

/-- Expansion is the identity on replacement strings without a dollar
character. -/
theorem expandRepl_no_dollar (matched pre post : List Char) :
    ∀ l : List Char, (∀ ch ∈ l, ch ≠ '$') → expandRepl matched pre post l = l := by
  intro l
  induction l with
  | nil => intro _; rfl
  | cons c tail ih =>
    intro h
    have hc : ¬ (c == '$') = true := by
      simpa using h c (by simp)
    cases tail with
    | nil => rfl
    | cons d rest =>
      have htail : ∀ ch ∈ d :: rest, ch ≠ '$' := fun ch hch => h ch (by simp [hch])
      simp only [expandRepl, if_neg hc]
      rw [ih htail]

/-- On dollar-free replacement strings, JavaScript `replace` coincides
with literal first-occurrence replacement. -/
theorem jsReplaceFirst_eq_literal (s pat repl : String)
    (h : ∀ ch ∈ repl.data, ch ≠ '$') :
    jsReplaceFirst s pat repl = literalReplaceFirst s pat repl := by
  unfold jsReplaceFirst literalReplaceFirst
  cases hidx : jsIndexOfFromL s.data pat.data 0 with
  | none => rfl
  | some i => simp [expandRepl_no_dollar _ _ _ repl.data h]

/-- On CRLF input a line comment ends before the carriage return: the
program preserves both the `\r` and the `\n`. -/
theorem removeComments_preserves_crlf :
    removeComments "x//c\r\ny" = "x\r\ny" ∧ removeComments "a//b\r//c\nd" = "a\r\nd" := by
  decide

/-- C8 (corrected): substitution is not literal string replacement — with
the class name `"$$"` (a legal identifier), JavaScript `replace`
interprets the dollar escape and inserts a single `$`. -/
theorem c8_prompt_builder_counterexample :
    buildTestUserMessage ⟨"sys", "A{className}B", "C{methodName}D{testFileName}E"⟩
        "$$" "m" "t" "x" ≠
      literalBuildTestUserMessage ⟨"sys", "A{className}B", "C{methodName}D{testFileName}E"⟩
        "$$" "m" "t" "x" := by
  decide

/-- C8 (amended): the user message is before + comment-stripped body +
after with `{className}` substituted in the before-fragment and
`{methodName}`, `{testFileName}` in the after-fragment by JavaScript
first-occurrence `replace` — which agrees with literal replacement
whenever the substituted values contain no dollar character (unmatched
tokens are left as-is, and the builder is a pure function of its
inputs). -/
theorem c8_prompt_builder_amended (p : PromptConfig)
    (className funcName testFileName clasCode : String)
    (hc : ∀ ch ∈ className.data, ch ≠ '$')
    (hm : ∀ ch ∈ funcName.data, ch ≠ '$')
    (ht : ∀ ch ∈ testFileName.data, ch ≠ '$') :
    buildTestUserMessage p className funcName testFileName clasCode =
      literalBuildTestUserMessage p className funcName testFileName clasCode := by
  unfold buildTestUserMessage literalBuildTestUserMessage
  rw [jsReplaceFirst_eq_literal _ _ _ hc, jsReplaceFirst_eq_literal _ _ _ hm,
    jsReplaceFirst_eq_literal _ _ _ ht]

/-- Witness for the amended C8 at concrete dollar-free inputs. -/
theorem c8_prompt_builder_amended_witness :
    (∀ ch ∈ ("Cls" : String).data, ch ≠ '$') ∧
    (∀ ch ∈ ("meth" : String).data, ch ≠ '$') ∧
    (∀ ch ∈ ("a.meth.spec.ts" : String).data, ch ≠ '$') ∧
    buildTestUserMessage ⟨"sys", "A{className}B", "C{methodName}D{testFileName}E"⟩
        "Cls" "meth" "a.meth.spec.ts" "class Cls { }" =
      literalBuildTestUserMessage ⟨"sys", "A{className}B", "C{methodName}D{testFileName}E"⟩
        "Cls" "meth" "a.meth.spec.ts" "class Cls { }" :=
  ⟨by decide, by decide, by decide,
   c8_prompt_builder_amended ⟨"sys", "A{className}B", "C{methodName}D{testFileName}E"⟩
     "Cls" "meth" "a.meth.spec.ts" "class Cls { }" (by decide) (by decide) (by decide)⟩

/- ### Claim C3 -/

/-- Joining strings with an all-whitespace separator is whitespace-only
exactly when every component is. -/
theorem all_joinSep (sep : String) (p : Char → Bool) (hs : sep.data.all p = true) :
    ∀ ts : List String, (joinSep sep ts).data.all p = ts.all (fun t => t.data.all p) := by
  intro ts
  induction ts with
  | nil => rfl
  | cons t tail ih =>
    cases tail with
    | nil => simp [joinSep]
    | cons u rest =>
      simp only [joinSep, String.data_append, List.all_append, List.all_cons] at *
      rw [ih, hs]
      simp [Bool.and_assoc]

/-- C3 (confirmed): documentation-mode selection accepts exactly the
declarations whose JsDoc list is empty or whose concatenated JsDoc text
is empty or whitespace-only, and whose source text is strictly longer
than the configured minimum; consequently it rejects every declaration
with non-blank documentation and every declaration at or below the
length threshold. -/
theorem c3_select_documentation_mode (ts : List String) (code : String) (minLength : Nat) :
    selectDocMode ts code minLength = true ↔
      ((ts = [] ∨ joinSep "" ts = "" ∨ (joinSep "" ts).data.all isJsWs = true) ∧
       minLength < code.length) := by
  have h1 := all_joinSep "\n" isJsWs (by decide) ts
  have h2 := all_joinSep "" isJsWs (by decide) ts
  constructor
  · intro h
    simp only [selectDocMode, Bool.and_eq_true, Bool.or_eq_true, beq_iff_eq,
      decide_eq_true_eq] at h
    obtain ⟨hdoc, hlen⟩ := h
    refine ⟨Or.inr (Or.inr ?_), hlen⟩
    rw [h2, ← h1]
    rcases hdoc with he | ha
    · rw [he]; rfl
    · exact ha
  · intro h
    obtain ⟨hdoc, hlen⟩ := h
    simp only [selectDocMode, Bool.and_eq_true, Bool.or_eq_true, beq_iff_eq,
      decide_eq_true_eq]
    refine ⟨Or.inr ?_, hlen⟩
    rw [h1, ← h2]
    rcases hdoc with he | he | ha
    · rw [he]; rfl
    · rw [he]; rfl
    · exact ha

/- ### Claim C5 -/

/-- C5 (corrected): the selection predicate is not the claimed one.  For
the `.tsx` source file `d/a.tsx` — matched by the tool's glob
`**/*.{ts,tsx}` — the code checks `d/a.tsx.m.spec.ts` (since
`path.basename(file, '.ts')` strips nothing and the suffix is the fixed
`.spec.ts`), while the claim's formula names `d/a.m.spec.tsx`; with the
latter file present the code still selects the method. -/
theorem c5_select_test_mode_counterexample :
    ¬ (selectTestMode "m" "xx" "d/a.tsx" ["d/a.m.spec.tsx"] 0 = true ↔
       (("m" : String) ≠ "" ∧ 0 < ("xx" : String).length ∧
        claimedTestFilePath "d/a.tsx" "m" ∉ (["d/a.m.spec.tsx"] : List String))) := by
  decide

/-- Unfolding of the test-generation selector into its three
conditions. -/
theorem selectTestMode_eq_true_iff (methodName methodCode filePath : String)
    (existing : List String) (minLength : Nat) :
    selectTestMode methodName methodCode filePath existing minLength = true ↔
      (methodName ≠ "" ∧ minLength < methodCode.length ∧
       testFilePath filePath methodName ∉ existing) := by
  simp [selectTestMode, and_assoc]

/-- C5 (amended): in test-generation mode a class method is processed iff
its name is non-empty, its source text length strictly exceeds the
configured minimum, and no file exists at
`dirname(file)/basename(file, ".ts").<methodName>.spec.ts` — a trailing
`.ts` is stripped from the base name but `.tsx` is not, and the test file
extension is always `.ts`.  (The model covers exactly the class-method
loop, so membership of the declaration in a class is structural.) -/
theorem c5_select_test_mode_amended (methodName methodCode filePath : String)
    (existing : List String) (minLength : Nat) :
    selectTestMode methodName methodCode filePath existing minLength = true ↔
      (methodName ≠ "" ∧ minLength < methodCode.length ∧
       testFilePath filePath methodName ∉ existing) :=
  selectTestMode_eq_true_iff methodName methodCode filePath existing minLength

/- ### Claim C6 -/

/-- A path bound in the file-system model is among its keys. -/
theorem fsLookup_mem_keys (p v : String) :
    ∀ l : List (String × String), fsLookup p l = some v → p ∈ l.map Prod.fst := by
  intro l
  induction l with
  | nil => intro h; exact Option.noConfusion h
  | cons kv rest ih =>
    intro h
    rw [fsLookup] at h
    by_cases hk : p = kv.1
    · simp [hk]
    · rw [if_neg hk] at h
      simp [ih h]

/-- One step of the method loop leaves every already-existing file's
content unchanged. -/
theorem testGenStep_preserves (filePath : String) (gen : String → String)
    (minLength : Nat) (st : TGState) (m : String × String) (p v : String)
    (hp : fsLookup p st.fs = some v) :
    fsLookup p (testGenStep filePath gen minLength st m).fs = some v := by
  unfold testGenStep
  split
  case isTrue hsel =>
    have hnc : testFilePath filePath m.1 ∉ st.fs.map Prod.fst := by
      rw [selectTestMode_eq_true_iff] at hsel
      exact fun hmem => absurd hmem hsel.2.2
    have hne : p ≠ testFilePath filePath m.1 := by
      intro he
      exact hnc (he ▸ fsLookup_mem_keys p v st.fs hp)
    rw [fsLookup, if_neg hne]
    exact hp
  case isFalse _ => exact hp

/-- The whole method loop leaves every already-existing file's content
unchanged. -/
theorem runTestGen_preserves (filePath : String) (gen : String → String)
    (minLength : Nat) :
    ∀ (methods : List (String × String)) (st : TGState) (p v : String),
      fsLookup p st.fs = some v →
      fsLookup p (runTestGen filePath gen minLength methods st).fs = some v := by
  intro methods
  induction methods with
  | nil => intro st p v hp; exact hp
  | cons m ms ih =>
    intro st p v hp
    rw [runTestGen, List.foldl_cons]
    exact ih (testGenStep filePath gen minLength st m) p v
      (testGenStep_preserves filePath gen minLength st m p v hp)

/-- C6 (confirmed): when a method's test file already exists at its
computed path, the loop step does nothing — no completion request is
issued and no write occurs — and across a whole run every pre-existing
test file keeps its content (the idempotent create-if-absent policy). -/
theorem c6_idempotent_create (filePath : String) (gen : String → String)
    (minLength : Nat) (methods : List (String × String)) (st : TGState)
    (p v : String) (mth : String × String)
    (hp : fsLookup p st.fs = some v)
    (hm : testFilePath filePath mth.1 ∈ st.fs.map Prod.fst) :
    testGenStep filePath gen minLength st mth = st ∧
    fsLookup p (runTestGen filePath gen minLength methods st).fs = some v := by
  constructor
  · have hsel : selectTestMode mth.1 mth.2 filePath (st.fs.map Prod.fst) minLength = false := by
      rw [Bool.eq_false_iff]
      intro hsel
      rw [selectTestMode_eq_true_iff] at hsel
      exact hsel.2.2 hm
    simp [testGenStep, hsel]
  · exact runTestGen_preserves filePath gen minLength methods st p v hp

/-- Witness for C6: a file system already holding `d/a.m.spec.ts` is left
untouched by a run that revisits method `m` of `d/a.ts`. -/
theorem c6_idempotent_create_witness :
    (fsLookup "d/a.m.spec.ts" ([("d/a.m.spec.ts", "old")] : List (String × String)) = some "old" ∧
     testFilePath "d/a.ts" "m" ∈ ([("d/a.m.spec.ts", "old")] : List (String × String)).map Prod.fst) ∧
    (testGenStep "d/a.ts" (fun _ => "new") 0 ⟨[("d/a.m.spec.ts", "old")], []⟩ ("m", "xx") =
       ⟨[("d/a.m.spec.ts", "old")], []⟩ ∧
     fsLookup "d/a.m.spec.ts"
       (runTestGen "d/a.ts" (fun _ => "new") 0 [("m", "xx")] ⟨[("d/a.m.spec.ts", "old")], []⟩).fs =
       some "old") :=
  ⟨⟨by decide, by decide⟩,
   c6_idempotent_create "d/a.ts" (fun _ => "new") 0 [("m", "xx")]
     ⟨[("d/a.m.spec.ts", "old")], []⟩ "d/a.m.spec.ts" "old" ("m", "xx")
     (by decide) (by decide)⟩

/- ### Claim C9 -/

/-- C9 (confirmed): in the unitTestCreator.js variant, once the name and
length guards pass, evaluating `generateTestFileContent(methodname, code)`
at line 89 looks up the identifier `methodname`, which is not bound
anywhere in the file (the loop binds `methodName`), so the branch throws
a ReferenceError and no test file is produced. -/
theorem c9_undefined_identifier (methodName code filePath testContent : String)
    (minLength : Nat) (h1 : methodName ≠ "") (h2 : minLength < code.length) :
    unitTestCreatorMethodBranch methodName code filePath testContent minLength =
      Except.error "ReferenceError: methodname is not defined" := by
  unfold unitTestCreatorMethodBranch
  rw [if_neg h1, if_neg (Nat.not_le.mpr h2)]
  rfl

/-- Witness for C9 at a concrete method. -/
theorem c9_undefined_identifier_witness :
    (("m" : String) ≠ "" ∧ 0 < ("xx" : String).length) ∧
    unitTestCreatorMethodBranch "m" "xx" "d/a.ts" "content" 0 =
      Except.error "ReferenceError: methodname is not defined" :=
  ⟨⟨by decide, by decide⟩,
   c9_undefined_identifier "m" "xx" "d/a.ts" "content" 0 (by decide) (by decide)⟩

end AICodeTools
